import Mathlib

/-!
Verification of the convex-splatting training loop and configuration layer.

We give a shallow embedding of the parts of `train.py` and
`arguments/__init__.py` that drive population control, checkpoint resume,
view selection and configuration merging, and prove properties about them.
Numeric thresholds are embedded as rationals, iteration counters as naturals.
-/

namespace ConvexSplatting

/-- Structure mirroring `OptimizationParams.__init__` from
`arguments/__init__.py` (lines 83-125).
Fields keep the Python attribute names; the two attributes assigned twice in
the constructor (`densify_grad_threshold`, `densify_until_iter`) carry the
value of the later assignment, which is the constructor's net effect.
The attribute `reset_opacity_unil` (sic, line 123) is distinct from
`reset_opacity_until` (line 97). -/
structure OptimizationParams where
  iterations : ℕ
  position_lr_delay_mult : ℚ
  position_lr_max_steps : ℕ
  feature_lr : ℚ
  opacity_lr : ℚ
  lambda_dssim : ℚ
  densification_interval : ℕ
  densify_from_iter : ℕ
  densify_until_iter : ℕ
  densify_grad_threshold : ℚ
  random_background : Bool
  reset_opacity_until : ℕ
  opacity_reset : ℚ
  opacity_reset_interval : ℕ
  remove_size_threshold : ℚ
  min_opacity : ℚ
  mask_threshold : ℚ
  lr_mask : ℚ
  lr_delta : ℚ
  lr_sigma : ℚ
  lr_convex_points_init : ℚ
  lr_convex_points_final : ℚ
  nb_points : ℕ
  convex_size : ℚ
  set_opacity : ℚ
  set_delta : ℚ
  opacity_cloning : ℚ
  delta_scaling_cloning : ℚ
  shifting_cloning : ℚ
  set_sigma : ℚ
  sigma_scaling_cloning : ℚ
  scaling_cloning : ℚ
  reset_opacity_unil : ℕ
  deriving DecidableEq

/-- The default values set by `OptimizationParams.__init__`. -/
def defaultOptimizationParams : OptimizationParams where
  iterations := 30000
  position_lr_delay_mult := 0.01
  position_lr_max_steps := 30000
  feature_lr := 0.0025
  opacity_lr := 0.01
  lambda_dssim := 0.2
  densification_interval := 200
  densify_from_iter := 500
  densify_until_iter := 9000
  densify_grad_threshold := 0.000025
  random_background := false
  reset_opacity_until := 9000
  opacity_reset := 0.2
  opacity_reset_interval := 3000
  remove_size_threshold := 0.3
  min_opacity := 0.03
  mask_threshold := 0.01
  lr_mask := 0.01
  lr_delta := 0.005
  lr_sigma := 0.0045
  lr_convex_points_init := 0.0005
  lr_convex_points_final := 0.000005
  nb_points := 6
  convex_size := 1.2
  set_opacity := 0.1
  set_delta := 0.1
  opacity_cloning := 0.5
  delta_scaling_cloning := 1
  shifting_cloning := 1
  set_sigma := 0.00095
  sigma_scaling_cloning := 0.88
  scaling_cloning := 0.63
  reset_opacity_unil := 5000

/-- Function `adapt(opt, light, outdoor)` from `arguments/__init__.py`
(lines 127-143):
two guarded blocks of in-place attribute assignments, then `return opt`. -/
def adapt (opt : OptimizationParams) (light outdoor : Bool) : OptimizationParams :=
  let opt1 :=
    if !light && outdoor then
      { opt with
        set_sigma := 0.001
        densify_grad_threshold := 0.000001
        lr_sigma := 0.004
        reset_opacity_unil := 18000
        scaling_cloning := 0.6 }
    else opt
  if !light && !outdoor then
    { opt1 with
      sigma_scaling_cloning := 0.85
      set_sigma := 0.0009
      densify_grad_threshold := 0.000006
      mask_threshold := 0.02
      scaling_cloning := 0.7
      lr_convex_points_init := 0.0004
      lr_convex_points_final := 0.000004
      densify_until_iter := 9500 }
  else opt1

/-- Which population-control and optimizer actions a single pass of the
training loop body performs, and with which arguments (`train.py`
lines 143-166). `densify_prune` records the arguments
`(min_opacity, mask_threshold, size_threshold)` of `densify_and_prune`
when it is invoked; `only_prune` records `(min_opacity, mask_threshold)`. -/
structure IterEvents where
  densify_stats : Bool
  densify_prune : Option (ℚ × ℚ × Option ℚ)
  reset_opacity : Bool
  only_prune : Option (ℚ × ℚ)
  optimizer_step : Bool
  deriving DecidableEq

/-- The population-control dispatch of one iteration of the training loop
(`train.py` lines 143-166), as a function of the adapted optimization
parameters, the dataset's `white_background` flag and the iteration number. -/
def iterationEvents (opt : OptimizationParams) (white_background : Bool)
    (iteration : ℕ) : IterEvents :=
  if iteration < opt.densify_until_iter then
    { densify_stats := true
      densify_prune :=
        if opt.densify_from_iter < iteration ∧
            iteration % opt.densification_interval = 0 then
          some (opt.min_opacity, opt.mask_threshold,
            if opt.opacity_reset_interval < iteration then
              some opt.remove_size_threshold
            else none)
        else none
      reset_opacity :=
        decide (iteration % opt.opacity_reset_interval = 0 ∨
          (white_background = true ∧ iteration = opt.densify_from_iter))
      only_prune := none
      optimizer_step := decide (iteration < opt.iterations) }
  else
    { densify_stats := false
      densify_prune := none
      reset_opacity :=
        decide (iteration % opt.opacity_reset_interval = 0 ∧
          iteration < opt.reset_opacity_until)
      only_prune :=
        if iteration % 1000 = 0 then
          some (opt.min_opacity, opt.mask_threshold)
        else none
      optimizer_step := decide (iteration < opt.iterations) }

/-- Loop setup (`train.py` lines 67-78): `first_iter = 0`, then, when a
checkpoint is given, `(model_params, first_iter) = torch.load(checkpoint)`
followed by `convexes.restore(model_params, opt)`. The model state is
abstract (`α`); the result is the restored model together with `first_iter`. -/
def startState {α : Type} (checkpoint : Option (α × ℕ)) (initModel : α) :
    α × ℕ :=
  match checkpoint with
  | some st => st
  | none => (initModel, 0)

/-- The sequence of iteration numbers the loop executes
(`train.py` lines 89-91): after `first_iter += 1`, the loop is
`range(first_iter, opt.iterations + 1)`. -/
def trainingIterations (first_iter N : ℕ) : List ℕ :=
  List.range' (first_iter + 1) (N - first_iter)

/-- View selection (`train.py` lines 101-103): when the stack is falsy
(`None` or empty, both embedded as `[]`), it is refilled with a copy of all
training views; then `viewpoint_stack.pop(randint(0, len(viewpoint_stack)-1))`
pops one element. The random draw is embedded as an arbitrary natural `r`
reduced modulo the current length. Returns the popped view (if any) and the
remaining stack. -/
def selectView {α : Type} (views stack : List α) (r : ℕ) : Option α × List α :=
  let s := if stack.isEmpty then views else stack
  (s.get? (r % s.length), s.eraseIdx (r % s.length))

/-- Iterated view selection over a list of random draws, collecting the
popped views in order and returning the final stack. -/
def runSelections {α : Type} (views : List α) :
    List α → List ℕ → List α × List α
  | stack, [] => ([], stack)
  | stack, r :: rs =>
    let step := selectView views stack r
    let rest := runSelections views step.2 rs
    (step.1.toList ++ rest.1, rest.2)

/-- Values held in a parsed-arguments namespace or a stored `cfg_args`
record. -/
inductive PyVal : Type
  | vInt : ℤ → PyVal
  | vRat : ℚ → PyVal
  | vStr : String → PyVal
  | vBool : Bool → PyVal
  deriving DecidableEq

/-- A Python namespace / dict as a partial map from attribute names to
values; `none` stands both for an absent key and for the value `None`. -/
def PyDict : Type := String → Option PyVal

/-- Errors `get_combined_args` can raise. -/
inductive PyErr : Type
  | typeError
  | fileNotFound
  deriving DecidableEq

/-- The merge loop of `get_combined_args` (`arguments/__init__.py` lines
163-167): `merged_dict = vars(args_cfgfile).copy()`, then every key of the
command-line namespace whose value is not `None` overrides the stored one. -/
def mergeArgs (cfg cmdline : PyDict) : PyDict :=
  fun k =>
    match cmdline k with
    | some v => some v
    | none => cfg k

/-- Parsing by `argparse` as `ParamGroup.__init__` configures it
(`arguments/__init__.py` lines 30-49): each registered key's parsed value is
the explicitly supplied one when present, and otherwise the default the
group registered for it (`None` for every key only when `fill_none` is set). -/
def parseArgs (defaults supplied : PyDict) : PyDict :=
  fun k =>
    match supplied k with
    | some v => some v
    | none => defaults k

/-- Function `get_combined_args(parser)` (`arguments/__init__.py`
lines 147-167).
The file system is a partial map from paths to parsed `cfg_args` contents;
`eval("Namespace()")` is the empty dict. `os.path.join` raises `TypeError`
when `model_path` is `None`, and that is the only exception the `try` block
catches; `open` on a missing file raises `FileNotFoundError`, which
propagates. -/
def get_combined_args (fs : String → Option PyDict)
    (model_path : Option String) (args_cmdline : PyDict) :
    Except PyErr PyDict :=
  match model_path with
  | none =>
    Except.ok (mergeArgs (fun _ => none) args_cmdline)
  | some p =>
    match fs (p ++ "/cfg_args") with
    | none => Except.error PyErr.fileNotFound
    | some cfg => Except.ok (mergeArgs cfg args_cmdline)

/-! Helper lemmas. -/

/-- Both branches of the loop body guard the optimizer step with
`iteration < opt.iterations`. -/
theorem iterationEvents_optimizer_step (opt : OptimizationParams) (wb : Bool)
    (it : ℕ) :
    (iterationEvents opt wb it).optimizer_step = decide (it < opt.iterations) := by
  unfold iterationEvents
  split <;> rfl

/-- Membership in the executed iteration range. -/
theorem mem_trainingIterations (first_iter N it : ℕ) :
    it ∈ trainingIterations first_iter N ↔ first_iter + 1 ≤ it ∧ it ≤ N := by
  unfold trainingIterations
  rw [List.mem_range'_1]
  omega

/-! Theorems for the claims. -/

/-- C10: for every input configuration `opt` and every value of the outdoor
flag, calling `adapt` with the light flag set to `true` is the identity: it
returns `opt` with every field unchanged. -/
theorem adapt_light_is_identity (opt : OptimizationParams) (outdoor : Bool) :
    adapt opt true outdoor = opt := by
  simp [adapt]

/-- C9: `adapt` leaves `reset_opacity_until` unchanged for every input
configuration and every value of the flags (its assignments target the
distinct attribute `reset_opacity_unil`), the default value of
`reset_opacity_until` is 9000, and in the post-growth phase the opacity
reset read by the training loop is gated by the original configuration's
`reset_opacity_until`. -/
theorem adapt_preserves_reset_opacity_until (opt : OptimizationParams)
    (light outdoor wb : Bool) (it : ℕ)
    (hpost : (adapt opt light outdoor).densify_until_iter ≤ it) :
    (adapt opt light outdoor).reset_opacity_until = opt.reset_opacity_until ∧
    defaultOptimizationParams.reset_opacity_until = 9000 ∧
    ((iterationEvents (adapt opt light outdoor) wb it).reset_opacity = true ↔
      it % (adapt opt light outdoor).opacity_reset_interval = 0 ∧
        it < opt.reset_opacity_until) := by
  have hpreserve : (adapt opt light outdoor).reset_opacity_until =
      opt.reset_opacity_until := by
    cases light <;> cases outdoor <;> simp [adapt]
  refine ⟨hpreserve, rfl, ?_⟩
  rw [iterationEvents, if_neg (by omega), decide_eq_true_eq, hpreserve]

/-- C3: at every iteration at or past the densify-until threshold, no
clone/split densification runs and no densification statistics are
accumulated; `only_prune` is invoked with the minimum-opacity and mask
thresholds exactly at iterations divisible by 1000, and the opacity reset
is invoked exactly at multiples of the opacity-reset interval strictly
below `reset_opacity_until`. -/
theorem post_growth_dispatch (opt : OptimizationParams) (wb : Bool) (it : ℕ)
    (hpost : opt.densify_until_iter ≤ it) :
    (iterationEvents opt wb it).densify_prune = none ∧
    (iterationEvents opt wb it).densify_stats = false ∧
    ((iterationEvents opt wb it).only_prune =
        some (opt.min_opacity, opt.mask_threshold) ↔ it % 1000 = 0) ∧
    ((iterationEvents opt wb it).only_prune = none ↔ ¬ it % 1000 = 0) ∧
    ((iterationEvents opt wb it).reset_opacity = true ↔
      it % opt.opacity_reset_interval = 0 ∧ it < opt.reset_opacity_until) := by
  rw [iterationEvents, if_neg (by omega)]
  refine ⟨rfl, rfl, ?_, ?_, by rw [decide_eq_true_eq]⟩ <;>
    by_cases h1000 : it % 1000 = 0 <;> simp [h1000]

/-- C5: at every growth-phase invocation of densify-and-prune, the
screen-space-size threshold passed is the configured remove-size threshold
exactly when the iteration is strictly past `opacity_reset_interval`, and
`none` at all earlier invocations. -/
theorem densify_prune_size_gate (opt : OptimizationParams) (wb : Bool)
    (it : ℕ) (h1 : it < opt.densify_until_iter)
    (h2 : opt.densify_from_iter < it)
    (h3 : it % opt.densification_interval = 0) :
    ∃ st, (iterationEvents opt wb it).densify_prune =
        some (opt.min_opacity, opt.mask_threshold, st) ∧
      (st = some opt.remove_size_threshold ↔ opt.opacity_reset_interval < it) ∧
      (st = none ↔ it ≤ opt.opacity_reset_interval) := by
  have hdp : (iterationEvents opt wb it).densify_prune =
      some (opt.min_opacity, opt.mask_threshold,
        if opt.opacity_reset_interval < it then some opt.remove_size_threshold
        else none) := by
    simp [iterationEvents, h1, h2, h3]
  refine ⟨_, hdp, ?_, ?_⟩ <;>
    by_cases hgate : opt.opacity_reset_interval < it <;> simp [hgate] <;> omega

/-- C4 (counterexample): with the default configuration and a white
background, the growth-phase opacity reset fires at iteration 500
(= `densify_from_iter`), which is neither a multiple of the opacity-reset
interval nor an iteration at which densify-and-prune is eligible to run
(`densify_prune` is not invoked at 500, since eligibility requires
`iteration > densify_from_iter`); at iteration 600, where densify-and-prune
runs for the first time, the reset does not fire. -/
theorem growth_reset_at_densify_from_counterexample :
    500 < defaultOptimizationParams.densify_until_iter ∧
    (iterationEvents defaultOptimizationParams true 500).reset_opacity = true ∧
    ¬ 500 % defaultOptimizationParams.opacity_reset_interval = 0 ∧
    (iterationEvents defaultOptimizationParams true 500).densify_prune = none ∧
    (iterationEvents defaultOptimizationParams true 600).densify_prune ≠ none ∧
    (iterationEvents defaultOptimizationParams true 600).reset_opacity = false := by
  decide

/-- C4 (amended): during the growth phase, the opacity reset is invoked
exactly at iterations that are a multiple of the opacity-reset interval,
and additionally once unconditionally when the background is white, at the
iteration equal to the densify-from threshold itself (an iteration at which
densify-and-prune is not yet eligible, eligibility requiring a strictly
greater iteration). -/
theorem growth_reset_characterization (opt : OptimizationParams) (wb : Bool)
    (it : ℕ) (hgrow : it < opt.densify_until_iter) :
    (iterationEvents opt wb it).reset_opacity = true ↔
      it % opt.opacity_reset_interval = 0 ∨
        (wb = true ∧ it = opt.densify_from_iter) := by
  rw [iterationEvents, if_pos hgrow, decide_eq_true_eq]

/-- C1 (counterexample): with the default configuration, iteration 30000 is
executed by the loop (it is the final iteration N = `opt.iterations`), yet
the optimizer step is not applied there: the step is guarded by
`iteration < opt.iterations`. -/
theorem optimizer_step_skipped_at_final_counterexample :
    30000 ∈ trainingIterations 0 defaultOptimizationParams.iterations ∧
    30000 = defaultOptimizationParams.iterations ∧
    (iterationEvents defaultOptimizationParams false 30000).optimizer_step
      = false := by
  refine ⟨?_, rfl, by decide⟩
  rw [mem_trainingIterations]
  exact ⟨by omega, by decide⟩

/-- C1 (amended): on every executed iteration of the training loop, the
optimizer step (with the subsequent gradient clearing) is applied exactly
when the iteration is not the final iteration N; at iteration N it is
skipped. -/
theorem optimizer_step_on_every_nonfinal_iteration (opt : OptimizationParams)
    (wb : Bool) (it : ℕ)
    (hmem : it ∈ trainingIterations 0 opt.iterations) :
    (iterationEvents opt wb it).optimizer_step = true ↔
      it ≠ opt.iterations := by
  rw [mem_trainingIterations] at hmem
  rw [iterationEvents_optimizer_step, decide_eq_true_eq]
  omega

/-- C2: restoring from a checkpoint whose stored iteration counter is `k`
restores the model state and sets `first_iter` to `k`; the loop then
executes exactly the iterations `k+1 .. N`, the first one being `k+1`;
without a checkpoint the first executed iteration is 1. -/
theorem checkpoint_resume (α : Type) (initModel m : α) (k N : ℕ)
    (hk : k < N) :
    startState (some (m, k)) initModel = (m, k) ∧
    (trainingIterations (startState (some (m, k)) initModel).2 N).head?
      = some (k + 1) ∧
    (∀ it, it ∈ trainingIterations (startState (some (m, k)) initModel).2 N ↔
      k + 1 ≤ it ∧ it ≤ N) ∧
    startState (none : Option (α × ℕ)) initModel = (initModel, 0) ∧
    (trainingIterations (startState (none : Option (α × ℕ)) initModel).2 N).head?
      = some 1 := by
  refine ⟨rfl, ?_, fun it => mem_trainingIterations k N it, rfl, ?_⟩
  · show (trainingIterations k N).head? = some (k + 1)
    unfold trainingIterations
    obtain ⟨d, hd⟩ : ∃ d, N - k = d + 1 := ⟨N - k - 1, by omega⟩
    rw [hd, List.range'_succ]
    rfl
  · show (trainingIterations 0 N).head? = some 1
    unfold trainingIterations
    obtain ⟨d, hd⟩ : ∃ d, N - 0 = d + 1 := ⟨N - 1, by omega⟩
    rw [hd, List.range'_succ]
    rfl

/-- C6 (counterexample): with a model path given but the `cfg_args` file
missing (empty file system) and an arbitrary command-line namespace,
`get_combined_args` raises (`FileNotFoundError` from `open` is not caught
by the `except TypeError` handler) instead of returning a merged namespace. -/
theorem combined_args_missing_record_counterexample :
    get_combined_args (fun _ => none) (some "output/run") (fun _ => none) =
      Except.error PyErr.fileNotFound := rfl

/-- C6 (amended): the fallback to an empty configuration merged with the
command-line values happens only when the model path itself is absent
(`os.path.join(None, ...)` raises `TypeError`, the one caught exception);
when a model path is given and the `cfg_args` record is missing, the call
is fatal. -/
theorem combined_args_missing_record (fs : String → Option PyDict)
    (args_cmdline : PyDict) (p : String)
    (hmiss : fs (p ++ "/cfg_args") = none) :
    get_combined_args fs none args_cmdline =
      Except.ok (mergeArgs (fun _ => none) args_cmdline) ∧
    get_combined_args fs (some p) args_cmdline =
      Except.error PyErr.fileNotFound := by
  exact ⟨rfl, by simp [get_combined_args, hmiss]⟩

/-- C7 (counterexample): with the parser registering the key `depth_ratio`
with the non-`None` default `1.0` (as the non-sentinel groups do), the user
supplying nothing on the command line, and the stored record holding `2.0`
for that key, the merged result is the parser default `1.0`, not the stored
value: a key the user did not supply does not fall back to the stored
record. -/
theorem merge_unsupplied_key_counterexample :
    (parseArgs (fun k => if k = "depth_ratio" then some (PyVal.vRat 1) else none)
      (fun _ => none)) "depth_ratio" = some (PyVal.vRat 1) ∧
    mergeArgs (fun k => if k = "depth_ratio" then some (PyVal.vRat 2) else none)
      (parseArgs (fun k => if k = "depth_ratio" then some (PyVal.vRat 1) else none)
        (fun _ => none)) "depth_ratio" = some (PyVal.vRat 1) ∧
    some (PyVal.vRat 1) ≠ some (PyVal.vRat 2) := by
  refine ⟨by simp [parseArgs], by simp [mergeArgs, parseArgs], by decide⟩

/-- C7 (amended): the merge overrides the stored record exactly at keys
whose parsed command-line value is not `None`: every explicitly supplied
value overrides the stored one, and a key the user did not supply falls
back to the stored record exactly when its registered parser default is
`None`; otherwise the non-`None` parser default overrides the stored
value. -/
theorem merge_override_policy (cfg defaults supplied : PyDict) (k : String) :
    (∀ v, supplied k = some v →
      mergeArgs cfg (parseArgs defaults supplied) k = some v) ∧
    (supplied k = none → defaults k = none →
      mergeArgs cfg (parseArgs defaults supplied) k = cfg k) ∧
    (∀ v, supplied k = none → defaults k = some v →
      mergeArgs cfg (parseArgs defaults supplied) k = some v) := by
  refine ⟨fun v hs => ?_, fun hs hd => ?_, fun v hs hd => ?_⟩ <;>
    simp [mergeArgs, parseArgs, hs] <;> simp [hd]

/-- When the stack is non-empty, no refill happens: selection pops directly
from the current stack. -/
theorem selectView_of_ne {α : Type} (views stack : List α) (r : ℕ)
    (h : stack ≠ []) :
    selectView views stack r =
      (stack.get? (r % stack.length), stack.eraseIdx (r % stack.length)) := by
  have he : stack.isEmpty = false := by cases stack <;> simp_all
  simp [selectView, he]

/-- Selecting from an empty stack and selecting from a stack that is a full
copy of the views behave identically. -/
theorem selectView_nil {α : Type} (views : List α) (r : ℕ) :
    selectView views ([] : List α) r = selectView views views r := by
  cases views <;> simp [selectView]

/-- Removing the element at index `i` and putting it back in front is a
permutation of the original list. -/
theorem get_cons_eraseIdx_perm {α : Type} :
    ∀ (l : List α) (i : ℕ) (h : i < l.length),
      List.Perm (l.get ⟨i, h⟩ :: l.eraseIdx i) l := by
  intro l
  induction l with
  | nil => intro i h; simp at h
  | cons a l ih =>
    intro i h
    cases i with
    | zero => simp [List.eraseIdx]
    | succ i =>
      have h' : i < l.length := by simpa using h
      have step : (a :: l).get ⟨i + 1, h⟩ :: (a :: l).eraseIdx (i + 1)
          = l.get ⟨i, h'⟩ :: a :: l.eraseIdx i := by
        simp [List.eraseIdx]
      rw [step]
      exact (List.Perm.swap a (l.get ⟨i, h'⟩) _).trans ((ih i h').cons a)

/-- Running as many selections as the stack has elements (so that no refill
is ever triggered) pops a permutation of the stack and empties it. -/
theorem runSelections_drain {α : Type} (views : List α) :
    ∀ (rs : List ℕ) (stack : List α), rs.length = stack.length →
      List.Perm (runSelections views stack rs).1 stack ∧
      (runSelections views stack rs).2 = [] := by
  intro rs
  induction rs with
  | nil =>
    intro stack h
    have : stack = [] := by
      cases stack
      · rfl
      · simp at h
    subst this
    simp [runSelections]
  | cons r rs ih =>
    intro stack h
    have hne : stack ≠ [] := by
      intro e
      subst e
      simp at h
    have hpos : 0 < stack.length := by
      cases stack
      · exact absurd rfl hne
      · simp
    have hi : r % stack.length < stack.length := Nat.mod_lt _ hpos
    have hlen : rs.length = (stack.eraseIdx (r % stack.length)).length := by
      have := List.length_eraseIdx_add_one hi
      simp at h
      omega
    obtain ⟨hperm, hnil⟩ := ih (stack.eraseIdx (r % stack.length)) hlen
    rw [show runSelections views stack (r :: rs) =
        ((selectView views stack r).1.toList ++
          (runSelections views (selectView views stack r).2 rs).1,
         (runSelections views (selectView views stack r).2 rs).2) from rfl,
      selectView_of_ne views stack r hne]
    refine ⟨?_, hnil⟩
    rw [List.get?_eq_get hi]
    exact ((hperm.cons (stack.get ⟨r % stack.length, hi⟩)).trans
      (get_cons_eraseIdx_perm stack (r % stack.length) hi))

/-- C8: with a non-empty list of training views, (i) a non-empty queue is
never refilled — selection pops directly from it, removing the popped view;
(ii) every selection succeeds, i.e. the queue popped from is non-empty;
(iii) between two consecutive refills — starting from an empty queue and
running as many selections as there are views — every training view is
selected exactly once (the popped views are a permutation of the views) and
the queue is empty again afterwards. -/
theorem view_queue_properties {α : Type} (views : List α) (hv : views ≠ []) :
    (∀ (stack : List α) (r : ℕ), stack ≠ [] →
      selectView views stack r =
        (stack.get? (r % stack.length), stack.eraseIdx (r % stack.length))) ∧
    (∀ (stack : List α) (r : ℕ), (selectView views stack r).1.isSome = true) ∧
    (∀ rs : List ℕ, rs.length = views.length →
      List.Perm (runSelections views [] rs).1 views ∧
      (runSelections views [] rs).2 = []) := by
  have hvpos : 0 < views.length := by
    cases views
    · exact absurd rfl hv
    · simp
  refine ⟨fun stack r h => selectView_of_ne views stack r h,
    fun stack r => ?_, fun rs hlen => ?_⟩
  · rcases List.eq_nil_or_concat stack with he | _
    · subst he
      rw [selectView_nil, selectView_of_ne views views r hv,
        List.get?_eq_get (Nat.mod_lt _ hvpos)]
      rfl
    · have hne : stack ≠ [] := by
        rintro rfl
        simp_all
      have hpos : 0 < stack.length := by
        cases stack
        · exact absurd rfl hne
        · simp
      rw [selectView_of_ne views stack r hne,
        List.get?_eq_get (Nat.mod_lt _ hpos)]
      rfl
  · obtain ⟨r, rs, rfl⟩ : ∃ r rest, rs = r :: rest := by
      cases rs with
      | nil =>
        exfalso
        rw [List.length_nil] at hlen
        omega
      | cons r rest => exact ⟨r, rest, rfl⟩
    have hstep : runSelections views ([] : List α) (r :: rs) =
        runSelections views views (r :: rs) := by
      rw [show runSelections views ([] : List α) (r :: rs) =
          ((selectView views ([] : List α) r).1.toList ++
            (runSelections views (selectView views ([] : List α) r).2 rs).1,
           (runSelections views (selectView views ([] : List α) r).2 rs).2)
          from rfl,
        show runSelections views views (r :: rs) =
          ((selectView views views r).1.toList ++
            (runSelections views (selectView views views r).2 rs).1,
           (runSelections views (selectView views views r).2 rs).2) from rfl,
        selectView_nil]
    rw [hstep]
    exact runSelections_drain views (r :: rs) views hlen

/-! Witnesses: each theorem with a hypothesis instantiated at a concrete
input. -/

/-- Witness for C9 at the adapted default configuration, iteration 9000. -/
theorem adapt_preserves_reset_opacity_until_witness :
    (adapt defaultOptimizationParams false true).densify_until_iter ≤ 9000 ∧
    ((adapt defaultOptimizationParams false true).reset_opacity_until =
        defaultOptimizationParams.reset_opacity_until ∧
      defaultOptimizationParams.reset_opacity_until = 9000 ∧
      ((iterationEvents (adapt defaultOptimizationParams false true) false
          9000).reset_opacity = true ↔
        9000 % (adapt defaultOptimizationParams false true).opacity_reset_interval
            = 0 ∧ 9000 < defaultOptimizationParams.reset_opacity_until)) :=
  ⟨by decide, adapt_preserves_reset_opacity_until defaultOptimizationParams
    false true false 9000 (by decide)⟩

/-- Witness for C3 at the default configuration, iteration 10000. -/
theorem post_growth_dispatch_witness :
    defaultOptimizationParams.densify_until_iter ≤ 10000 ∧
    ((iterationEvents defaultOptimizationParams false 10000).densify_prune
        = none ∧
      (iterationEvents defaultOptimizationParams false 10000).densify_stats
        = false ∧
      ((iterationEvents defaultOptimizationParams false 10000).only_prune =
        some (defaultOptimizationParams.min_opacity,
          defaultOptimizationParams.mask_threshold) ↔ 10000 % 1000 = 0) ∧
      ((iterationEvents defaultOptimizationParams false 10000).only_prune
          = none ↔ ¬ 10000 % 1000 = 0) ∧
      ((iterationEvents defaultOptimizationParams false 10000).reset_opacity
          = true ↔
        10000 % defaultOptimizationParams.opacity_reset_interval = 0 ∧
          10000 < defaultOptimizationParams.reset_opacity_until)) :=
  ⟨by decide,
    post_growth_dispatch defaultOptimizationParams false 10000 (by decide)⟩

/-- Witness for C5 at the default configuration, iteration 3200. -/
theorem densify_prune_size_gate_witness :
    (3200 < defaultOptimizationParams.densify_until_iter ∧
      defaultOptimizationParams.densify_from_iter < 3200 ∧
      3200 % defaultOptimizationParams.densification_interval = 0) ∧
    ∃ st, (iterationEvents defaultOptimizationParams false 3200).densify_prune =
        some (defaultOptimizationParams.min_opacity,
          defaultOptimizationParams.mask_threshold, st) ∧
      (st = some defaultOptimizationParams.remove_size_threshold ↔
        defaultOptimizationParams.opacity_reset_interval < 3200) ∧
      (st = none ↔ 3200 ≤ defaultOptimizationParams.opacity_reset_interval) :=
  ⟨⟨by decide, by decide, by decide⟩,
    densify_prune_size_gate defaultOptimizationParams false 3200 (by decide)
      (by decide) (by decide)⟩

/-- Witness for the amended C4 at the default configuration, white
background, iteration 500. -/
theorem growth_reset_characterization_witness :
    500 < defaultOptimizationParams.densify_until_iter ∧
    ((iterationEvents defaultOptimizationParams true 500).reset_opacity
        = true ↔
      500 % defaultOptimizationParams.opacity_reset_interval = 0 ∨
        (true = true ∧ 500 = defaultOptimizationParams.densify_from_iter)) :=
  ⟨by decide,
    growth_reset_characterization defaultOptimizationParams true 500 (by decide)⟩

/-- Witness for the amended C1 at the default configuration, iteration 1. -/
theorem optimizer_step_on_every_nonfinal_iteration_witness :
    1 ∈ trainingIterations 0 defaultOptimizationParams.iterations ∧
    ((iterationEvents defaultOptimizationParams false 1).optimizer_step
        = true ↔ 1 ≠ defaultOptimizationParams.iterations) :=
  ⟨by rw [mem_trainingIterations]; exact ⟨by omega, by decide⟩,
    optimizer_step_on_every_nonfinal_iteration defaultOptimizationParams
      false 1 (by rw [mem_trainingIterations]; exact ⟨by omega, by decide⟩)⟩

/-- Witness for C2: checkpoint saved at iteration 7000, N = 30000; the
resumed loop's first executed iteration is 7001. -/
theorem checkpoint_resume_witness :
    (7000 : ℕ) < 30000 ∧
    (trainingIterations (startState (some ((0 : ℕ), 7000)) 0).2 30000).head? =
      some 7001 :=
  ⟨by decide, (checkpoint_resume ℕ 0 0 7000 30000 (by decide)).2.1⟩

/-- Witness for the amended C6: empty file system, model path "out". -/
theorem combined_args_missing_record_witness :
    ((fun _ => (none : Option PyDict)) ("out" ++ "/cfg_args") = none) ∧
    get_combined_args (fun _ => none) (some "out") (fun _ => none) =
      Except.error PyErr.fileNotFound :=
  ⟨rfl, (combined_args_missing_record (fun _ => none) (fun _ => none) "out"
    rfl).2⟩

/-- Witness for the amended C7: key `depth_ratio` unsupplied with a `None`
default falls back to the stored record's value. -/
theorem merge_override_policy_witness :
    ((fun _ => (none : Option PyVal)) "depth_ratio" = none) ∧
    mergeArgs (fun k => if k = "depth_ratio" then some (PyVal.vRat 2) else none)
      (parseArgs (fun _ => none) (fun _ => none)) "depth_ratio" =
      (fun k => if k = "depth_ratio" then some (PyVal.vRat 2) else none)
        "depth_ratio" :=
  ⟨rfl, (merge_override_policy
    (fun k => if k = "depth_ratio" then some (PyVal.vRat 2) else none)
    (fun _ => none) (fun _ => none) "depth_ratio").2.1 rfl rfl⟩

/-- Witness for C8 with views `[0, 1]` and random draws `[1, 0]`. -/
theorem view_queue_properties_witness :
    ([0, 1] : List ℕ) ≠ [] ∧
    ([1, 0] : List ℕ).length = ([0, 1] : List ℕ).length ∧
    List.Perm (runSelections [0, 1] ([] : List ℕ) [1, 0]).1 [0, 1] ∧
    (runSelections [0, 1] ([] : List ℕ) [1, 0]).2 = [] :=
  ⟨by decide, by decide,
    ((view_queue_properties [0, 1] (by decide)).2.2 [1, 0] (by decide)).1,
    ((view_queue_properties [0, 1] (by decide)).2.2 [1, 0] (by decide)).2⟩

end ConvexSplatting
